import Mathlib

/-!
Verification of the seamless_payments event-tracking and persistence layer.

The definitions below are a shallow embedding of the Python sources:
  - `seamless_payments/db/event_tracking.py` (PaymentEvent, PaymentEventTracker,
    track_payment_event),
  - `seamless_payments/db/init.py` (DatabaseIntegration.handle_payment_event,
    _map_event_to_status),
  - `seamless_payments/db/schemas.py` (TransactionBase, TransactionStatus),
  - `seamless_payments/db/model.py` (transactions table, SQLAlchemyDatabase),
  - `seamless_payments/manager.py` (PaymentTransaction).

Python exceptions are modelled with `Except PyErr`; mutable attributes become
explicit state records; `datetime` timestamps become a `Nat` clock; `float`
amounts become `Rat` (no claim performs floating-point arithmetic on them);
JSON/dict values become association lists of strings.
-/

namespace SeamlessPayments

/-- A raised Python exception: its class name and message. -/
structure PyErr where
  name : String
  msg : String
deriving Repr, DecidableEq

/-- Result of running a piece of Python code that may raise. -/
abbrev PyResult (α : Type) := Except PyErr α

/-- Python `needle in hay` on strings, on the underlying character lists:
`containsSub needle hay` is true iff `needle` occurs contiguously in `hay`. -/
def containsSub [BEq α] (needle : List α) : List α → Bool
  | [] => needle.isEmpty
  | a :: as => needle.isPrefixOf (a :: as) || containsSub needle as

/-- Python `needle in hay` for strings (substring containment). -/
def pyStrContains (hay needle : String) : Bool :=
  containsSub needle.data hay.data

/-- `PaymentEventType` enum from event_tracking.py (values kept verbatim,
including the source's misspelled `invoice_draft_reated`). -/
inductive PaymentEventType where
  | TRANSACTION_STARTED
  | INVOICE_DRAFT_CREATED
  | INVOICE_FINALISED
  | INVOICE_ITEM_CREATED
  | PAYMENT_INTENT_CREATED
  | PAYMENT_INTENT_UPDATED
  | PAYMENT_INTENT_CANCELED
  | PAYMENT_METHOD_ATTACHED
  | PAYMENT_CONFIRMED
  | PAYMENT_CAPTURED
  | PAYMENT_FAILED
  | REFUND_INITIATED
  | REFUND_COMPLETED
  | CUSTOMER_CREATED
  | CUSTOMER_UPDATED
  | CUSTOMER_DELETED
  | CUSTOMER_RETRIEVED
  | TRANSACTION_COMPLETED
  | PAYPAL_ORDER_CREATED
  | PAYPAL_INVOICE_CREATED
deriving Repr, DecidableEq

/-- The string value of each `PaymentEventType` member. -/
def PaymentEventType.value : PaymentEventType → String
  | .TRANSACTION_STARTED => "transaction_started"
  | .INVOICE_DRAFT_CREATED => "invoice_draft_reated"
  | .INVOICE_FINALISED => "invoice_finalised"
  | .INVOICE_ITEM_CREATED => "invoice_item_created"
  | .PAYMENT_INTENT_CREATED => "payment_intent_created"
  | .PAYMENT_INTENT_UPDATED => "payment_intent_updated"
  | .PAYMENT_INTENT_CANCELED => "payment_intent_canceled"
  | .PAYMENT_METHOD_ATTACHED => "payment_method_attached"
  | .PAYMENT_CONFIRMED => "payment_confirmed"
  | .PAYMENT_CAPTURED => "payment_captured"
  | .PAYMENT_FAILED => "payment_failed"
  | .REFUND_INITIATED => "refund_initiated"
  | .REFUND_COMPLETED => "refund_completed"
  | .CUSTOMER_CREATED => "customer_created"
  | .CUSTOMER_UPDATED => "customer_updated"
  | .CUSTOMER_DELETED => "customer_deleted"
  | .CUSTOMER_RETRIEVED => "customer_retrieved"
  | .TRANSACTION_COMPLETED => "transaction_completed"
  | .PAYPAL_ORDER_CREATED => "paypal_order_created"
  | .PAYPAL_INVOICE_CREATED => "paypal_invoice_created"

/-- `TransactionStatus` enum from schemas.py. -/
inductive TransactionStatus where
  | PARTIALLY_REFUNDED
  | STARTED
  | PENDING
  | SUCCEEDED
  | FAILED
  | REFUNDED
  | COMPLETED
deriving Repr, DecidableEq

/-- The string value of each `TransactionStatus` member. -/
def TransactionStatus.value : TransactionStatus → String
  | .PARTIALLY_REFUNDED => "partially_refunded"
  | .STARTED => "started"
  | .PENDING => "pending"
  | .SUCCEEDED => "succeeded"
  | .FAILED => "failed"
  | .REFUNDED => "refunded"
  | .COMPLETED => "completed"

/-- `PaymentEvent` pydantic model from event_tracking.py.  Field defaults
mirror the pydantic defaults.  `created_at` has no default here: in the source
its default expression `datetime.now()` is evaluated once, when the class body
runs at module import, and that behaviour is modelled separately by
`mk_payment_event_defaulted` below. -/
structure PaymentEvent where
  transaction_id : String
  event_id : String
  event_type : PaymentEventType
  processor : String
  resource_id : String
  status : String
  payment_status : Option String := some "pending"
  amount : Option Rat := none
  currency : Option String := none
  customer_id : Option String := none
  processor_metadata : List (String × String) := []
  metadata : List (String × String) := []
  created_at : Nat
  parent_event_id : Option String := none
deriving Repr, DecidableEq

/-- The source declares the field default `created_at: datetime = datetime.now()`:
the call runs once, while the class body executes at module import, so every
instance that does not pass `created_at` explicitly receives that single
import-time value.  `moduleLoadTime` stands for that one evaluation. -/
def payment_event_created_at_default (moduleLoadTime : Nat) : Nat :=
  moduleLoadTime

/-- Constructing a `PaymentEvent` at wall-clock time `_now` without passing
`created_at`: the stored timestamp is the class-level default, not `_now`. -/
def mk_payment_event_defaulted (moduleLoadTime _now : Nat)
    (transaction_id event_id : String) (event_type : PaymentEventType)
    (processor resource_id status : String) : PaymentEvent :=
  { transaction_id := transaction_id
    event_id := event_id
    event_type := event_type
    processor := processor
    resource_id := resource_id
    status := status
    created_at := payment_event_created_at_default moduleLoadTime }

/-- `PaymentEventTracker` from event_tracking.py.  A handler is an async
callable that receives the event and the ambient world state `σ`, returns the
updated state, and possibly raises (the state changes it made before raising
persist, as in Python).  `current_transactions` models the dynamic attribute
`_current_transactions`: `none` means the attribute was never assigned, so
reading it raises `AttributeError`. -/
structure PaymentEventTracker (σ : Type) where
  tracking_enabled : Bool
  handlers : List (PaymentEvent → σ → σ × Option PyErr)
  current_transactions : Option (List (String × String))

/-- `PaymentEventTracker.__init__`: sets only `_tracking_enabled = False` and
`_handlers = []`; `_current_transactions` is never assigned. -/
def PaymentEventTracker.init (σ : Type) : PaymentEventTracker σ :=
  { tracking_enabled := false
    handlers := []
    current_transactions := none }

/-- The `for handler in self._handlers` loop of `track_event`: each handler is
called in list order inside `try/except Exception`, so the state it produced is
kept and its exception, if any, is logged and swallowed. -/
def run_handlers (e : PaymentEvent) (s : σ) :
    List (PaymentEvent → σ → σ × Option PyErr) → σ
  | [] => s
  | h :: rest => run_handlers e (h e s).1 rest

/-- `PaymentEventTracker.track_event`: bail out while disabled, otherwise run
every handler sequentially with per-handler exception capture.  The result type
records that the method itself can only return normally. -/
def PaymentEventTracker.track_event (tr : PaymentEventTracker σ)
    (e : PaymentEvent) (s : σ) : PyResult σ :=
  if tr.tracking_enabled = false then Except.ok s
  else Except.ok (run_handlers e s tr.handlers)

/-- The `AttributeError` raised on reading the never-assigned attribute. -/
def currentTransactionsAttrErr : PyErr :=
  { name := "AttributeError"
    msg := "PaymentEventTracker object has no attribute _current_transactions" }

/-- `PaymentEventTracker.start_transaction`:
`self._current_transactions[resource_id] = transaction_id`.  Reading the
attribute raises when it was never assigned. -/
def PaymentEventTracker.start_transaction (tr : PaymentEventTracker σ)
    (resource_id transaction_id : String) : PyResult (PaymentEventTracker σ) :=
  match tr.current_transactions with
  | none => Except.error currentTransactionsAttrErr
  | some m =>
    let m2 := (resource_id, transaction_id) :: m.filter (fun kv => kv.1 != resource_id)
    Except.ok { tr with current_transactions := some m2 }

/-- `PaymentEventTracker.end_transaction`:
`self._current_transactions.pop(resource_id, None)`. -/
def PaymentEventTracker.end_transaction (tr : PaymentEventTracker σ)
    (resource_id : String) : PyResult (PaymentEventTracker σ) :=
  match tr.current_transactions with
  | none => Except.error currentTransactionsAttrErr
  | some m =>
    let m2 := m.filter (fun kv => kv.1 != resource_id)
    Except.ok { tr with current_transactions := some m2 }

/-- `TransactionBase` pydantic model from schemas.py: `amount: float` and
`currency: str` are required fields that reject `None`. -/
structure TransactionBase where
  transaction_id : String
  event_id : String
  event_type : String
  payment_processor : String
  resource_id : String
  amount : Rat
  currency : String
  status : TransactionStatus
  customer_id : Option String := none
  payment_method : Option String := none
  metadata : Option (List (String × String)) := none
  processor_metadata : Option (List (String × String)) := none
  parent_event_id : Option String := none
deriving Repr, DecidableEq

/-- Pydantic validation of `TransactionBase(**transaction_data)` as built in
`handle_payment_event`: the required `amount: float` and `currency: str`
raise `ValidationError` when the event carried `None`; `payment_method` is
absent from the dict and defaults to `None`. -/
def TransactionBase.validate (transaction_id event_id event_type : String)
    (payment_processor resource_id : String) (amount : Option Rat)
    (currency : Option String) (status : TransactionStatus)
    (customer_id : Option String) (processor_metadata : List (String × String))
    (parent_event_id : Option String) (metadata : List (String × String)) :
    PyResult TransactionBase :=
  match amount, currency with
  | some a, some c =>
    Except.ok
      { transaction_id := transaction_id
        event_id := event_id
        event_type := event_type
        payment_processor := payment_processor
        resource_id := resource_id
        amount := a
        currency := c
        status := status
        customer_id := customer_id
        payment_method := none
        metadata := some metadata
        processor_metadata := some processor_metadata
        parent_event_id := parent_event_id }
  | none, _ =>
    Except.error { name := "ValidationError", msg := "amount: none is not an allowed value" }
  | _, none =>
    Except.error { name := "ValidationError", msg := "currency: none is not an allowed value" }

/-- A row of the `transactions` table from model.py. -/
structure TransactionRecord where
  id : String
  transaction_id : String
  event_id : String
  event_type : String
  payment_processor : String
  resource_id : String
  status : String
  amount : Option Rat
  currency : Option String
  customer_id : Option String
  payment_method : Option String
  metadata : Option (List (String × String))
  processor_metadata : Option (List (String × String))
  parent_event_id : Option String
  created_at : Nat
deriving Repr, DecidableEq

/-- The column names of the `transactions` table from model.py.  There is no
column named `processor`: the processor column is `payment_processor`. -/
def transactions_columns : List String :=
  ["id", "transaction_id", "event_id", "event_type", "payment_processor",
   "resource_id", "status", "amount", "currency", "customer_id",
   "payment_method", "metadata", "processor_metadata", "parent_event_id",
   "created_at"]

/-- SQLAlchemy `transactions.c.<name>`: resolves a column by name while a
statement is being built, raising `AttributeError` when the table has no such
column. -/
def tableColumn (name : String) : PyResult String :=
  if transactions_columns.contains name then Except.ok name
  else Except.error { name := "AttributeError", msg := name }

/-- State of the SQLite/SQLAlchemy storage: the rows of the `transactions`
table in insertion order, a counter standing in for `uuid.uuid4()` primary
keys, and a monotone clock standing in for `datetime.utcnow` row defaults. -/
structure DbState where
  rows : List TransactionRecord
  nextUuid : Nat
  clock : Nat
deriving Repr, DecidableEq

/-- The `IntegrityError` produced by violating `uq_event_id`. -/
def dupEventIdErr : PyErr :=
  { name := "IntegrityError"
    msg := "UNIQUE constraint failed: transactions.event_id" }

/-- The row an `INSERT` of `t` produces: column values from `t` plus the
generated `id` (`uuid.uuid4()` default) and `created_at` (`datetime.utcnow`
default), with the pydantic enum value stored in the `status` string column. -/
def DbState.newRow (st : DbState) (t : TransactionBase) : TransactionRecord :=
  { id := "uuid-" ++ toString st.nextUuid
    transaction_id := t.transaction_id
    event_id := t.event_id
    event_type := t.event_type
    payment_processor := t.payment_processor
    resource_id := t.resource_id
    status := t.status.value
    amount := some t.amount
    currency := some t.currency
    customer_id := t.customer_id
    payment_method := t.payment_method
    metadata := t.metadata
    processor_metadata := t.processor_metadata
    parent_event_id := t.parent_event_id
    created_at := st.clock }

/-- `SQLAlchemyDatabase.create_transaction` from model.py: a single `INSERT`
into `transactions`.  The table carries `UniqueConstraint("event_id")`, so the
insert raises an `IntegrityError` when a row with the same `event_id` already
exists; otherwise the new row is appended. -/
def DbState.create_transaction (st : DbState) (t : TransactionBase) :
    PyResult (DbState × TransactionRecord) :=
  if st.rows.any (fun r => r.event_id == t.event_id) then
    Except.error dupEventIdErr
  else
    let row := st.newRow t
    Except.ok ({ rows := st.rows ++ [row], nextUuid := st.nextUuid + 1, clock := st.clock + 1 }, row)

/-- `DatabaseIntegration._map_event_to_status` from init.py. -/
def DatabaseIntegration.map_event_to_status (event : PaymentEvent) : TransactionStatus :=
  if pyStrContains event.status.toLower "failed" then TransactionStatus.FAILED
  else if event.event_type = PaymentEventType.PAYMENT_CAPTURED then TransactionStatus.SUCCEEDED
  else if event.event_type = PaymentEventType.PAYMENT_INTENT_CREATED then TransactionStatus.PENDING
  else if event.event_type = PaymentEventType.PAYMENT_CONFIRMED then TransactionStatus.PENDING
  else TransactionStatus.PENDING

/-- `DatabaseIntegration.handle_payment_event` from init.py.  With no database
(`self._db` unset) it logs and returns.  Otherwise it builds the
`transaction_data` dict and validates it as a `TransactionBase` — this runs
before the `try:` block, so a `ValidationError` propagates to the caller —
then attempts `create_transaction` inside `try/except Exception`, where any
storage error is logged and swallowed, leaving the stored rows unchanged. -/
def DatabaseIntegration.handle_payment_event (db : Option DbState)
    (event : PaymentEvent) : PyResult (Option DbState) :=
  match db with
  | none => Except.ok none
  | some st =>
    match TransactionBase.validate event.transaction_id event.event_id
        event.event_type.value event.processor event.resource_id
        event.amount event.currency (DatabaseIntegration.map_event_to_status event)
        event.customer_id
        (("event_type", event.event_type.value) :: event.processor_metadata)
        event.parent_event_id event.metadata with
    | Except.error e => Except.error e
    | Except.ok td =>
      match st.create_transaction td with
      | Except.error _ => Except.ok (some st)
      | Except.ok (st2, _) => Except.ok (some st2)

/-- Ascending stable insertion by `created_at` (the `ORDER BY created_at`). -/
def insertByCreatedAt (r : TransactionRecord) :
    List TransactionRecord → List TransactionRecord
  | [] => [r]
  | x :: xs =>
    if r.created_at < x.created_at then r :: x :: xs
    else x :: insertByCreatedAt r xs

/-- Stable sort of rows by ascending `created_at`. -/
def sortByCreatedAt (l : List TransactionRecord) : List TransactionRecord :=
  l.foldl (fun acc r => insertByCreatedAt r acc) []

/-- `SQLAlchemyDatabase.get_resource_records` from model.py.  Building the
select statement resolves `transactions.c.resource_id` and then
`transactions.c.processor`; the table has no `processor` column (it is
`payment_processor`), so the second resolution raises `AttributeError` before
any query runs. -/
def SQLAlchemyDatabase.get_resource_records (st : DbState)
    (resource_id processor : String) : PyResult (List TransactionRecord) :=
  match tableColumn "resource_id", tableColumn "processor" with
  | Except.ok _, Except.ok _ =>
    Except.ok (sortByCreatedAt (st.rows.filter
      (fun r => r.resource_id == resource_id && r.payment_processor == processor)))
  | Except.error e, _ => Except.error e
  | _, Except.error e => Except.error e

/-- `PaymentTransaction` from manager.py: a transaction id fixed at
construction and the list of operations registered so far.  An operation is an
async callable receiving the transaction id and the ambient state `σ`,
returning the updated state together with its result or raised exception. -/
structure PaymentTransaction (σ α : Type) where
  operations : List (String → σ → σ × PyResult α)
  transaction_id : String

/-- `PaymentTransaction.__init__`. -/
def PaymentTransaction.init (σ α : Type) (transaction_id : String) :
    PaymentTransaction σ α :=
  { operations := [], transaction_id := transaction_id }

/-- `PaymentTransaction.add`: awaits `operation(self.transaction_id)` and
returns its result; on success the operation is appended to `_operations`; on
an exception the failure is logged and the very same exception re-raised. -/
def PaymentTransaction.add (txn : PaymentTransaction σ α)
    (op : String → σ → σ × PyResult α) (s : σ) :
    PaymentTransaction σ α × σ × PyResult α :=
  match op txn.transaction_id s with
  | (s2, Except.ok v) =>
    ({ txn with operations := txn.operations ++ [op] }, s2, Except.ok v)
  | (s2, Except.error e) => (txn, s2, Except.error e)

/-- `PaymentTransaction.__aexit__`: logs, then returns `False` when called
with an exception (so the exception is re-raised) and `True` otherwise; the
object, in particular `transaction_id`, is left untouched. -/
def PaymentTransaction.aexit (txn : PaymentTransaction σ α)
    (exc : Option PyErr) : Bool × PaymentTransaction σ α :=
  match exc with
  | some _ => (false, txn)
  | none => (true, txn)

/-- The event constructed on entry to the `track_payment_event` context
manager.  `parent_event_id` is `f"{parent_resource_id}-{event_type.value}"`
when `parent_resource_id` is truthy (a non-empty string), else `None`.
`fresh_event_id` stands for the `uuid.uuid4()` default of `event_id`, and
`created_at_default` for the class-level `created_at` default. -/
def track_payment_event_enter (event_type : PaymentEventType)
    (transaction_id processor resource_id status : String)
    (parent_resource_id : Option String) (fresh_event_id : String)
    (created_at_default : Nat) : PaymentEvent :=
  let parent_event_id : Option String :=
    match parent_resource_id with
    | some p => if p = "" then none else some (p ++ "-" ++ event_type.value)
    | none => none
  { transaction_id := transaction_id
    event_id := fresh_event_id
    event_type := event_type
    processor := processor
    resource_id := resource_id
    status := status
    parent_event_id := parent_event_id
    created_at := created_at_default }

/-- The synthetic failure event built in the `except` clause of
`track_payment_event`: status `"failed"`, `parent_event_id` set to the
original event's `event_id`.  The source passes the error details under the
misspelled keyword `procesor_metadata`, which pydantic ignores as an unknown
extra field, so `processor_metadata` keeps its empty default. -/
def track_payment_event_failure (event_type : PaymentEventType)
    (transaction_id processor resource_id : String) (orig : PaymentEvent)
    (_errMsg : String) (fresh_event_id : String) (created_at_default : Nat) :
    PaymentEvent :=
  { transaction_id := transaction_id
    event_id := fresh_event_id
    event_type := event_type
    processor := processor
    resource_id := resource_id
    status := "failed"
    parent_event_id := some orig.event_id
    processor_metadata := []
    metadata := []
    created_at := created_at_default }

/-- The `finally` clause of `track_payment_event` combined with the body
outcome: on `TRANSACTION_COMPLETED` it calls `event_tracker.end_transaction`,
and an exception raised there supersedes even a successful body result. -/
def track_payment_event_exit (tr : PaymentEventTracker σ)
    (event_type : PaymentEventType) (resource_id : String)
    (body : PyResult β) : PyResult (β × PaymentEventTracker σ) :=
  let cleanup : PyResult (PaymentEventTracker σ) :=
    if event_type = PaymentEventType.TRANSACTION_COMPLETED then
      tr.end_transaction resource_id
    else Except.ok tr
  match cleanup, body with
  | Except.error e, _ => Except.error e
  | Except.ok t2, Except.ok b => Except.ok (b, t2)
  | Except.ok _, Except.error e => Except.error e

/-- The invariant the specification states for `parent_event_id`: whenever it
is set on a tracked event, it names the `event_id` of an event recorded
earlier in the same transaction (`history` lists those earlier events). -/
def claimedParentInvariant (history : List PaymentEvent) (e : PaymentEvent) : Prop :=
  ∀ pid, e.parent_event_id = some pid →
    ∃ prior, prior ∈ history ∧ prior.transaction_id = e.transaction_id ∧
      prior.event_id = pid

/-- The status-derivation rule as the specification words it: a
case-insensitive `"failed"` substring wins, then capture completion maps to
`SUCCEEDED`, intent creation and confirmation to `PENDING`, default
`PENDING`. -/
def claimedStatusDerivation (event : PaymentEvent) : TransactionStatus :=
  if pyStrContains event.status.toLower "failed" then TransactionStatus.FAILED
  else
    match event.event_type with
    | PaymentEventType.PAYMENT_CAPTURED => TransactionStatus.SUCCEEDED
    | PaymentEventType.PAYMENT_INTENT_CREATED => TransactionStatus.PENDING
    | PaymentEventType.PAYMENT_CONFIRMED => TransactionStatus.PENDING
    | _ => TransactionStatus.PENDING

/-- An empty storage state. -/
def emptyDb : DbState :=
  { rows := [], nextUuid := 0, clock := 0 }

/-- A concrete event with `amount` and `currency` left at their absent
defaults, as `track_payment_event` produces for every event it constructs
without explicit amount kwargs. -/
def eventNoAmount : PaymentEvent :=
  { transaction_id := "txn-1"
    event_id := "evt-1"
    event_type := PaymentEventType.PAYMENT_CONFIRMED
    processor := "stripe"
    resource_id := "pi-1"
    status := "requires_capture"
    created_at := 0 }

/-- A concrete event carrying an amount and a currency. -/
def eventWithAmount : PaymentEvent :=
  { transaction_id := "txn-1"
    event_id := "evt-2"
    event_type := PaymentEventType.PAYMENT_CAPTURED
    processor := "stripe"
    resource_id := "pi-1"
    status := "succeeded"
    amount := some 100
    currency := some "USD"
    created_at := 0 }

/-- A second concrete event with the same `event_id` as `eventWithAmount`. -/
def eventDuplicateId : PaymentEvent :=
  { transaction_id := "txn-9"
    event_id := "evt-2"
    event_type := PaymentEventType.PAYMENT_FAILED
    processor := "stripe"
    resource_id := "pi-9"
    status := "failed"
    amount := some 250
    currency := some "EUR"
    created_at := 0 }

/-- The `TransactionBase` that `handle_payment_event` builds for an event
whose `amount` is `some a` and whose `currency` is `some c`. -/
def mappedBase (e : PaymentEvent) (a : Rat) (c : String) : TransactionBase :=
  { transaction_id := e.transaction_id
    event_id := e.event_id
    event_type := e.event_type.value
    payment_processor := e.processor
    resource_id := e.resource_id
    amount := a
    currency := c
    status := DatabaseIntegration.map_event_to_status e
    customer_id := e.customer_id
    payment_method := none
    metadata := some e.metadata
    processor_metadata := some (("event_type", e.event_type.value) :: e.processor_metadata)
    parent_event_id := e.parent_event_id }

/-- A handler that records its invocation in the state and then raises. -/
def h1_throws : PaymentEvent → List Nat → List Nat × Option PyErr :=
  fun _ s => (s ++ [1], some { name := "RuntimeError", msg := "H1 boom" })

/-- A handler that records its invocation in the state and succeeds. -/
def h2_succeeds : PaymentEvent → List Nat → List Nat × Option PyErr :=
  fun _ s => (s ++ [2], none)

/-! ## Helper lemmas -/

theorem validate_event_ok (e : PaymentEvent) (a : Rat) (c : String)
    (ha : e.amount = some a) (hc : e.currency = some c) :
    TransactionBase.validate e.transaction_id e.event_id e.event_type.value
      e.processor e.resource_id e.amount e.currency
      (DatabaseIntegration.map_event_to_status e) e.customer_id
      (("event_type", e.event_type.value) :: e.processor_metadata)
      e.parent_event_id e.metadata = Except.ok (mappedBase e a c) := by
  rw [ha, hc]; rfl

theorem handle_payment_event_eq (st : DbState) (e : PaymentEvent) (a : Rat)
    (c : String) (ha : e.amount = some a) (hc : e.currency = some c) :
    DatabaseIntegration.handle_payment_event (some st) e =
      match st.create_transaction (mappedBase e a c) with
      | Except.error _ => Except.ok (some st)
      | Except.ok (st2, _) => Except.ok (some st2) := by
  simp only [DatabaseIntegration.handle_payment_event]
  rw [validate_event_ok e a c ha hc]

theorem create_transaction_fresh (st : DbState) (t : TransactionBase)
    (hfresh : ∀ r ∈ st.rows, r.event_id ≠ t.event_id) :
    st.create_transaction t =
      Except.ok ({ rows := st.rows ++ [st.newRow t], nextUuid := st.nextUuid + 1,
                   clock := st.clock + 1 }, st.newRow t) := by
  have hcond : ¬ (st.rows.any (fun r => r.event_id == t.event_id) = true) := by
    intro hany
    obtain ⟨r, hr, hbeq⟩ := List.any_eq_true.mp hany
    exact hfresh r hr (by simpa using hbeq)
  unfold DbState.create_transaction
  rw [if_neg hcond]

theorem create_transaction_dup (st : DbState) (t : TransactionBase)
    (hdup : ∃ r, r ∈ st.rows ∧ r.event_id = t.event_id) :
    st.create_transaction t = Except.error dupEventIdErr := by
  obtain ⟨r, hr, he⟩ := hdup
  have hcond : st.rows.any (fun r => r.event_id == t.event_id) = true :=
    List.any_eq_true.mpr ⟨r, hr, by simp [he]⟩
  unfold DbState.create_transaction
  rw [if_pos hcond]

theorem run_handlers_log (e : PaymentEvent)
    {hs : List (PaymentEvent → List Nat → List Nat × Option PyErr)}
    {ts : List Nat}
    (hf : List.Forall₂ (fun h t => ∀ s, (h e s).1 = s ++ [t]) hs ts) :
    ∀ s, run_handlers e s hs = s ++ ts := by
  induction hf with
  | nil => intro s; simp [run_handlers]
  | cons h1 _ ih =>
    intro s
    simp only [run_handlers]
    rw [h1 s, ih]
    simp

/-! ## Claim theorems -/

/-- C4: for every `PaymentEvent`, `_map_event_to_status` follows the fixed
precedence the specification states: a case-insensitive `"failed"` substring
in the status string forces `FAILED` regardless of event type; otherwise
`PAYMENT_CAPTURED` gives `SUCCEEDED`, `PAYMENT_INTENT_CREATED` and
`PAYMENT_CONFIRMED` give `PENDING`, and every other event type defaults to
`PENDING`. -/
theorem c4_status_derivation_matches_spec (e : PaymentEvent) :
    DatabaseIntegration.map_event_to_status e = claimedStatusDerivation e := by
  unfold DatabaseIntegration.map_event_to_status claimedStatusDerivation
  cases h : pyStrContains e.status.toLower "failed" with
  | true => simp [h]
  | false =>
    simp only [h, Bool.false_eq_true, if_false]
    cases e.event_type <;> rfl

/-- C5: a freshly constructed tracker has tracking disabled, and `track_event`
on any disabled tracker returns `None` without raising and leaves the world
state `s` untouched — since this holds for every state type, every state and
every handler list (including handlers that always mutate the state), no
handler is invoked and no storage write happens. -/
theorem c5_disabled_tracker_noop (σ : Type) (tr : PaymentEventTracker σ)
    (e : PaymentEvent) (s : σ) (hdis : tr.tracking_enabled = false) :
    (PaymentEventTracker.init σ).tracking_enabled = false ∧
      tr.track_event e s = Except.ok s := by
  refine ⟨rfl, ?_⟩
  unfold PaymentEventTracker.track_event
  rw [if_pos hdis]

/-- Witness for C5: the fresh tracker itself, with a state-mutating handler
registered, at a concrete event and empty log. -/
theorem c5_disabled_tracker_noop_witness :
    (PaymentEventTracker.init (List Nat)).tracking_enabled = false ∧
      PaymentEventTracker.track_event
        { tracking_enabled := false, handlers := [h2_succeeds],
          current_transactions := none } eventWithAmount [] = Except.ok [] :=
  ⟨(c5_disabled_tracker_noop (List Nat) (PaymentEventTracker.init (List Nat))
      eventWithAmount [] rfl).1,
   (c5_disabled_tracker_noop (List Nat)
      { tracking_enabled := false, handlers := [h2_succeeds],
        current_transactions := none } eventWithAmount [] rfl).2⟩

/-- C7: `PaymentTransaction.add` passes the context's `transaction_id` to the
operation, returns the operation's outcome verbatim (its result on success,
the very same exception on failure) and its state effect unchanged, and leaves
`transaction_id` untouched; `__aexit__` also leaves `transaction_id` untouched
and returns `False` exactly when an exception arrived (so the exception is
re-raised, never suppressed). -/
theorem c7_transaction_context (σ α : Type) (txn : PaymentTransaction σ α)
    (op : String → σ → σ × PyResult α) (s : σ) (exc : Option PyErr) :
    (txn.add op s).2.2 = (op txn.transaction_id s).2 ∧
    (txn.add op s).2.1 = (op txn.transaction_id s).1 ∧
    (txn.add op s).1.transaction_id = txn.transaction_id ∧
    (txn.aexit exc).2.transaction_id = txn.transaction_id ∧
    (txn.aexit exc).1 = exc.isNone := by
  cases hop : op txn.transaction_id s with
  | mk s2 r =>
    cases r <;> cases exc <;>
      simp [PaymentTransaction.add, PaymentTransaction.aexit, hop]

/-- C9 (documenting the code bug): the `created_at` default of `PaymentEvent`
is the single import-time value of `datetime.now()`, so an event constructed
at time `n1` and one constructed at time `n2` carry the same `created_at`
(namely the module-load time), contradicting the claim that construction time
determines it. -/
theorem c9_created_at_ignores_construction_time (load n1 n2 : Nat)
    (tid eid proc rid st0 : String) (et : PaymentEventType) :
    (mk_payment_event_defaulted load n1 tid eid et proc rid st0).created_at =
      (mk_payment_event_defaulted load n2 tid eid et proc rid st0).created_at ∧
    (mk_payment_event_defaulted load n1 tid eid et proc rid st0).created_at = load :=
  ⟨rfl, rfl⟩

/-- C10: the constructor initializes only the enabled flag and the handler
list, so on a freshly constructed tracker both `start_transaction` and
`end_transaction` raise `AttributeError` for the never-assigned
`_current_transactions`, and exiting the `track_payment_event` context manager
with `TRANSACTION_COMPLETED` raises that error even when the wrapped body
succeeded. -/
theorem c10_current_transactions_never_created (σ β : Type)
    (rid tid : String) (b : β) :
    (PaymentEventTracker.init σ).start_transaction rid tid =
        Except.error currentTransactionsAttrErr ∧
    (PaymentEventTracker.init σ).end_transaction rid =
        Except.error currentTransactionsAttrErr ∧
    track_payment_event_exit (PaymentEventTracker.init σ)
        PaymentEventType.TRANSACTION_COMPLETED rid (Except.ok b) =
      Except.error currentTransactionsAttrErr :=
  ⟨rfl, rfl, rfl⟩

/-- C6 (documenting the code bug): building the `get_resource_records` query
resolves `transactions.c.processor`, but the table's column is named
`payment_processor`, so the call raises `AttributeError` for every state and
every argument pair instead of returning the matching records. -/
theorem c6_get_resource_records_always_raises (st : DbState)
    (resource_id processor : String) :
    SQLAlchemyDatabase.get_resource_records st resource_id processor =
      Except.error { name := "AttributeError", msg := "processor" } := rfl

/-- C2: an enabled tracker's `track_event` never raises, and it invokes the
registered handlers sequentially in registration order with per-handler
exception capture: whenever handler `i` records tag `ts[i]` in the log state
when invoked (whether or not it also raises), the final log is the initial log
followed by all tags in registration order.  Instantiated below with
`[h1_throws, h2_succeeds]`: both run, and the effect of `h2_succeeds` lands
even though `h1_throws` raised. -/
theorem c2_track_event_handler_isolation :
    (∀ (σ : Type) (tr : PaymentEventTracker σ) (e : PaymentEvent) (s : σ),
      ∃ s2, tr.track_event e s = Except.ok s2) ∧
    (∀ (e : PaymentEvent)
      (hs : List (PaymentEvent → List Nat → List Nat × Option PyErr))
      (ts : List Nat),
      List.Forall₂ (fun h t => ∀ s, (h e s).1 = s ++ [t]) hs ts →
      ∀ s : List Nat,
        PaymentEventTracker.track_event
          { tracking_enabled := true, handlers := hs, current_transactions := none }
          e s = Except.ok (s ++ ts)) := by
  constructor
  · intro σ tr e s
    by_cases h : tr.tracking_enabled = false
    · exact ⟨s, by unfold PaymentEventTracker.track_event; rw [if_pos h]⟩
    · exact ⟨run_handlers e s tr.handlers,
        by unfold PaymentEventTracker.track_event; rw [if_neg h]⟩
  · intro e hs ts hf s
    have hlog := run_handlers_log e hf s
    simp [PaymentEventTracker.track_event, hlog]

/-- Witness for C2: with the throwing `h1_throws` registered before
`h2_succeeds`, both record their invocation, in order. -/
theorem c2_track_event_handler_isolation_witness :
    PaymentEventTracker.track_event
      { tracking_enabled := true, handlers := [h1_throws, h2_succeeds],
        current_transactions := none } eventWithAmount [] = Except.ok [1, 2] :=
  c2_track_event_handler_isolation.2 eventWithAmount [h1_throws, h2_succeeds]
    [1, 2]
    (List.Forall₂.cons (fun _ => rfl)
      (List.Forall₂.cons (fun _ => rfl) List.Forall₂.nil)) []

/-- C1 counterexample: for an event whose `amount` (and `currency`) is absent,
`handle_payment_event` raises pydantic's `ValidationError` out of the handler:
the mapping step sits before the `try:` block, so the exception propagates to
the caller instead of being caught inside the handler. -/
theorem c1_counterexample_mapping_raises :
    DatabaseIntegration.handle_payment_event (some emptyDb) eventNoAmount =
      Except.error { name := "ValidationError",
                     msg := "amount: none is not an allowed value" } := rfl

/-- C1 as amended: exceptions from the storage write are caught and logged
inside `handle_payment_event`, which then returns normally — whenever the
mapping step succeeds (the event carries an amount and a currency), the
handler never propagates an exception; but the mapping step itself runs
outside the `try/except`, so for an event with absent `amount` or `currency`
the `ValidationError` propagates to the caller. -/
theorem c1_amended_storage_errors_swallowed (e : PaymentEvent) :
    (∀ db : Option DbState, e.amount.isSome = true → e.currency.isSome = true →
      ∃ db2, DatabaseIntegration.handle_payment_event db e = Except.ok db2) ∧
    (∀ st : DbState, e.amount = none ∨ e.currency = none →
      ∃ err, DatabaseIntegration.handle_payment_event (some st) e =
        Except.error err) := by
  constructor
  · intro db ha hc
    obtain ⟨a, ha2⟩ := Option.isSome_iff_exists.mp ha
    obtain ⟨c, hc2⟩ := Option.isSome_iff_exists.mp hc
    match db with
    | none => exact ⟨none, rfl⟩
    | some st =>
      rw [handle_payment_event_eq st e a c ha2 hc2]
      cases h2 : st.create_transaction (mappedBase e a c) with
      | error err => exact ⟨some st, rfl⟩
      | ok p =>
        obtain ⟨st2, row⟩ := p
        exact ⟨some st2, rfl⟩
  · intro st h
    rcases h with h | h
    · refine ⟨{ name := "ValidationError",
                msg := "amount: none is not an allowed value" }, ?_⟩
      simp only [DatabaseIntegration.handle_payment_event]
      cases hc : e.currency <;> rw [h] <;> rfl
    · cases ha : e.amount with
      | none =>
        refine ⟨{ name := "ValidationError",
                  msg := "amount: none is not an allowed value" }, ?_⟩
        simp only [DatabaseIntegration.handle_payment_event]
        rw [h, ha]; rfl
      | some a =>
        refine ⟨{ name := "ValidationError",
                  msg := "currency: none is not an allowed value" }, ?_⟩
        simp only [DatabaseIntegration.handle_payment_event]
        rw [h, ha]; rfl

/-- Witness for C1 as amended: a concrete event with amount and currency is
handled without raising, and a concrete event missing them raises. -/
theorem c1_amended_storage_errors_swallowed_witness :
    (∃ db2, DatabaseIntegration.handle_payment_event (some emptyDb)
      eventWithAmount = Except.ok db2) ∧
    (∃ err, DatabaseIntegration.handle_payment_event (some emptyDb)
      eventNoAmount = Except.error err) :=
  ⟨(c1_amended_storage_errors_swallowed eventWithAmount).1 (some emptyDb) rfl rfl,
   (c1_amended_storage_errors_swallowed eventNoAmount).2 emptyDb (Or.inl rfl)⟩

/-- C3: submitting two events with the same `event_id` to the Persistence
Mapper leaves exactly one stored record with that id: the first insert
succeeds, the unique constraint makes any further insert with that `event_id`
fail with an `IntegrityError`, and the mapper swallows that conflict,
returning normally with the stored rows unchanged. -/
theorem c3_idempotent_persistence (st : DbState) (e1 e2 : PaymentEvent)
    (hid : e1.event_id = e2.event_id)
    (hA1 : e1.amount.isSome = true) (hC1 : e1.currency.isSome = true)
    (hA2 : e2.amount.isSome = true) (hC2 : e2.currency.isSome = true)
    (hfresh : ∀ r ∈ st.rows, r.event_id ≠ e1.event_id) :
    ∃ st1 : DbState,
      DatabaseIntegration.handle_payment_event (some st) e1 =
        Except.ok (some st1) ∧
      (st1.rows.filter (fun r => r.event_id == e1.event_id)).length = 1 ∧
      (∀ t : TransactionBase, t.event_id = e1.event_id →
        ∃ err, st1.create_transaction t = Except.error err) ∧
      DatabaseIntegration.handle_payment_event (some st1) e2 =
        Except.ok (some st1) := by
  obtain ⟨a1, hae1⟩ := Option.isSome_iff_exists.mp hA1
  obtain ⟨c1, hce1⟩ := Option.isSome_iff_exists.mp hC1
  obtain ⟨a2, hae2⟩ := Option.isSome_iff_exists.mp hA2
  obtain ⟨c2, hce2⟩ := Option.isSome_iff_exists.mp hC2
  have hfresh1 : ∀ r ∈ st.rows, r.event_id ≠ (mappedBase e1 a1 c1).event_id :=
    hfresh
  refine ⟨{ rows := st.rows ++ [st.newRow (mappedBase e1 a1 c1)],
            nextUuid := st.nextUuid + 1, clock := st.clock + 1 },
          ?_, ?_, ?_, ?_⟩
  · rw [handle_payment_event_eq st e1 a1 c1 hae1 hce1,
      create_transaction_fresh st _ hfresh1]
  · rw [List.filter_append]
    have h0 : st.rows.filter (fun r => r.event_id == e1.event_id) = [] :=
      List.filter_eq_nil_iff.mpr (fun r hr => by simpa using hfresh r hr)
    rw [h0]
    simp [DbState.newRow, mappedBase, List.filter]
  · intro t ht
    refine ⟨dupEventIdErr, create_transaction_dup _ t
      ⟨st.newRow (mappedBase e1 a1 c1),
       List.mem_append_right _ (List.mem_singleton_self _), ?_⟩⟩
    rw [ht]; rfl
  · rw [handle_payment_event_eq _ e2 a2 c2 hae2 hce2,
      create_transaction_dup
        { rows := st.rows ++ [st.newRow (mappedBase e1 a1 c1)],
          nextUuid := st.nextUuid + 1, clock := st.clock + 1 }
        (mappedBase e2 a2 c2)
        ⟨st.newRow (mappedBase e1 a1 c1),
         List.mem_append_right _ (List.mem_singleton_self _),
         by simpa [DbState.newRow, mappedBase] using hid⟩]

/-- Witness for C3: two concrete events sharing `event_id` `"evt-2"` submitted
to the mapper over an empty store. -/
theorem c3_idempotent_persistence_witness :
    ∃ st1 : DbState,
      DatabaseIntegration.handle_payment_event (some emptyDb) eventWithAmount =
        Except.ok (some st1) ∧
      (st1.rows.filter (fun r => r.event_id == eventWithAmount.event_id)).length = 1 ∧
      (∀ t : TransactionBase, t.event_id = eventWithAmount.event_id →
        ∃ err, st1.create_transaction t = Except.error err) ∧
      DatabaseIntegration.handle_payment_event (some st1) eventDuplicateId =
        Except.ok (some st1) :=
  c3_idempotent_persistence emptyDb eventWithAmount eventDuplicateId rfl rfl rfl
    rfl rfl (by intro r hr; simp [emptyDb] at hr)

/-- C8 counterexample: the very first event of a transaction can already carry
a set `parent_event_id` — entering `track_payment_event` with
`parent_resource_id="INV-1"` yields `parent_event_id = "INV-1-payment_captured"`,
a synthesized string, while no event at all was recorded earlier in the
transaction. -/
theorem c8_counterexample_first_event :
    ¬ claimedParentInvariant []
      (track_payment_event_enter PaymentEventType.PAYMENT_CAPTURED "txn-1"
        "stripe" "pi-1" "created" (some "INV-1") "evt-9" 0) := by
  intro h
  obtain ⟨prior, hmem, -⟩ := h "INV-1-payment_captured" (by decide)
  exact List.not_mem_nil prior hmem

/-- C8 as amended: when the context manager is entered with a non-empty
`parent_resource_id`, the constructed event's `parent_event_id` is the
synthesized string `parent_resource_id ++ "-" ++ event_type.value` — not
necessarily the `event_id` of any earlier event; with no (or an empty)
`parent_resource_id` it stays unset; only the synthetic failure event's
`parent_event_id` refers to an actual earlier event, namely the `event_id` of
the event constructed at entry. -/
theorem c8_amended_parent_reference (et : PaymentEventType)
    (tid proc rid st0 fid fid2 emsg : String) (t t2 : Nat) (p : String)
    (hp : ¬ p = "") (orig : PaymentEvent) :
    (track_payment_event_enter et tid proc rid st0 (some p) fid t).parent_event_id =
      some (p ++ "-" ++ et.value) ∧
    (track_payment_event_enter et tid proc rid st0 none fid t).parent_event_id =
      none ∧
    (track_payment_event_enter et tid proc rid st0 (some "") fid t).parent_event_id =
      none ∧
    (track_payment_event_failure et tid proc rid orig emsg fid2 t2).parent_event_id =
      some orig.event_id := by
  refine ⟨?_, rfl, rfl, rfl⟩
  simp [track_payment_event_enter, hp]

/-- Witness for C8 as amended, at `parent_resource_id = "INV-1"`. -/
theorem c8_amended_parent_reference_witness :
    (track_payment_event_enter PaymentEventType.PAYMENT_CAPTURED "txn-1"
      "stripe" "pi-1" "created" (some "INV-1") "evt-9" 0).parent_event_id =
      some ("INV-1" ++ "-" ++ PaymentEventType.PAYMENT_CAPTURED.value) ∧
    (track_payment_event_enter PaymentEventType.PAYMENT_CAPTURED "txn-1"
      "stripe" "pi-1" "created" none "evt-9" 0).parent_event_id = none ∧
    (track_payment_event_enter PaymentEventType.PAYMENT_CAPTURED "txn-1"
      "stripe" "pi-1" "created" (some "") "evt-9" 0).parent_event_id = none ∧
    (track_payment_event_failure PaymentEventType.PAYMENT_CAPTURED "txn-1"
      "stripe" "pi-1" eventWithAmount "boom" "evt-10" 0).parent_event_id =
      some eventWithAmount.event_id :=
  c8_amended_parent_reference PaymentEventType.PAYMENT_CAPTURED "txn-1"
    "stripe" "pi-1" "created" "evt-9" "evt-10" "boom" 0 0 "INV-1" (by decide)
    eventWithAmount

end SeamlessPayments
